import Mathlib

/-!
Verification of the YP-Site-Info-Generator pipeline (src/app.py,
src/dxf_generator.py, src/dropbox_fema.py) against its natural-language
specification.  The geometry-to-drawing pipeline of `generate_dxf` is
shallowly embedded: coordinates are rational pairs, modelspace entities are
an inductive type, and each pipeline step is a Lean function translated
from the corresponding Python statements.
-/

namespace YPSite

/-- A planar coordinate pair (easting/x, northing/y), modelling the
projected-CRS floating-point coordinates as rationals. -/
abbrev Pt := ℚ × ℚ

/-- Road or flood geometry as it appears in the pipeline.  Mirrors the
shapely geometry types the code branches on (`geom.geom_type == "LineString"`
/ `"MultiLineString"`). -/
inductive Geom where
  | lineString : List Pt → Geom
  | multiLineString : List (List Pt) → Geom
deriving Repr, DecidableEq

/-- `geom.is_empty` for the geometry types above. -/
def Geom.isEmptyGeom : Geom → Bool
  | .lineString c => c.isEmpty
  | .multiLineString ps => ps.isEmpty

/-- All coordinate points carried by a geometry. -/
def Geom.points : Geom → List Pt
  | .lineString c => c
  | .multiLineString ps => ps.flatten

/-- One raw road edge as returned by the OSM provider after clipping:
a geometry and the `name` column, which may be null (`None`/NaN). -/
structure RoadEdge where
  name : Option String
  geometry : Geom
deriving Repr, DecidableEq

/-- Worker for `drop_duplicates`: keep a row iff its `name` value has not
been seen on an earlier kept-or-skipped row. -/
def dropDuplicatesByNameAux (seen : List (Option String)) :
    List RoadEdge → List RoadEdge
  | [] => []
  | e :: es =>
      if e.name ∈ seen then dropDuplicatesByNameAux seen es
      else e :: dropDuplicatesByNameAux (e.name :: seen) es

/-- `roads.drop_duplicates(subset="name")` (pandas default `keep="first"`):
keep the first row for each `name` value, drop every later row whose
`name` equals an earlier one. -/
def dropDuplicatesByName (l : List RoadEdge) : List RoadEdge :=
  dropDuplicatesByNameAux [] l

/-- Line 48 of src/dxf_generator.py:
`roads = roads.dropna(subset=["name"]).drop_duplicates(subset="name")`. -/
def prepareRoads (edges : List RoadEdge) : List RoadEdge :=
  dropDuplicatesByName (edges.filter (fun e => e.name.isSome))

/-- Names defined at module level by src/dropbox_fema.py. -/
def dropboxFemaDefs : List String := ["county_flood_links", "load_fema_layer"]

/-- Names src/dxf_generator.py imports from `dropbox_fema`
(line 10: `from dropbox_fema import get_fema_zip`). -/
def dxfGeneratorImportsFromDropboxFema : List String := ["get_fema_zip"]

/-- The import of src/dxf_generator.py succeeds iff every imported name is
defined in `dropbox_fema`. -/
def importOfDxfGeneratorOk : Bool :=
  dxfGeneratorImportsFromDropboxFema.all (fun n => dropboxFemaDefs.contains n)

/-- The parameters of `generate_dxf` (src/dxf_generator.py lines 14-27),
in order; none has a default value, so each must be supplied. -/
def generateDxfParams : List String :=
  ["output_path", "project_name", "northing", "easting", "drawing_scale",
   "text_plot_height", "font_choice", "buffer_miles", "scale_factor",
   "county_name", "use_surface_scaling", "nad_suffix"]

/-- The keyword arguments app.py passes when calling `generate_dxf`
(src/app.py lines 88-101). -/
def appCallKwargs : List String :=
  ["output_path", "project_name", "northing", "easting", "drawing_scale",
   "text_plot_height", "font_choice", "buffer_miles", "county_name",
   "coord_basis", "scale_factor", "nad_suffix"]

/-- The call is well-formed (raises no `TypeError`) iff every keyword
argument names a parameter and every (default-less) parameter is supplied. -/
def appCallWellFormed : Bool :=
  appCallKwargs.all (fun k => generateDxfParams.contains k) &&
  generateDxfParams.all (fun p => appCallKwargs.contains p)

/-- Lines 156-160 of src/dxf_generator.py: the `nad_suffix` parameter is
overwritten inside `generate_dxf` — `"N83S"` when `use_surface_scaling`,
`"N83G"` otherwise. -/
def nadSuffixOf (useSurfaceScaling : Bool) : String :=
  if useSurfaceScaling then "N83S" else "N83G"

/-- Line 171 of src/dxf_generator.py:
`filename = f"{project_name}_{county_name}_VicinityMap_1in{drawing_scale}ft_{nad_suffix}.dxf"`
with `nad_suffix` as overwritten by the scaling branch.  The project name is
interpolated verbatim. -/
def dxfFilename (projectName countyName : String) (drawingScale : ℕ)
    (useSurfaceScaling : Bool) : String :=
  projectName ++ "_" ++ countyName ++ "_VicinityMap_1in" ++
    toString drawingScale ++ "ft_" ++ nadSuffixOf useSurfaceScaling ++ ".dxf"

/-- Characters illegal in file names on common filesystems. -/
def illegalFilenameChars : List Char :=
  ['/', '\\', ':', '*', '?', '"', '<', '>', '|']

/-- Modelled from the spec: "sanitization strips characters illegal in
file names". -/
def sanitizeFilename (s : String) : String :=
  String.mk (s.data.filter (fun c => ¬ illegalFilenameChars.contains c))

/-- Modelled from the spec (§4.6): the output file name with the project
name sanitized.  Stated only to be compared with `dxfFilename`, the
definition taken from the source. -/
def dxfFilenameSpec (projectName countyName : String) (drawingScale : ℕ)
    (useSurfaceScaling : Bool) : String :=
  sanitizeFilename projectName ++ "_" ++ countyName ++ "_VicinityMap_1in" ++
    toString drawingScale ++ "ft_" ++ nadSuffixOf useSurfaceScaling ++ ".dxf"

/-- A TEXT entity in the modelspace: `msp.add_text(content, dxfattribs)`
followed by setting `dxf.insert`.  `add_text` is never passed a `rotation`
attribute anywhere in src/dxf_generator.py, so every text entity carries
the ezdxf default rotation 0. -/
structure TextEnt where
  content : String
  insert : Pt
  rotation : ℚ
  height : ℚ
  layer : String
deriving Repr, DecidableEq

/-- An LWPOLYLINE entity: `msp.add_lwpolyline(points, close=..., dxfattribs)`. -/
structure PolyEnt where
  points : List Pt
  closed : Bool
  layer : String
deriving Repr, DecidableEq

/-- A modelspace entity.  The code only ever adds these two kinds. -/
inductive Entity where
  | text : TextEnt → Entity
  | lwpolyline : PolyEnt → Entity
deriving Repr, DecidableEq

/-- The layer an entity was placed on. -/
def Entity.layer : Entity → String
  | .text t => t.layer
  | .lwpolyline p => p.layer

/-- Project an entity to its TEXT payload, if any. -/
def Entity.asText : Entity → Option TextEnt
  | .text t => some t
  | .lwpolyline _ => none

/-- Project an entity to its LWPOLYLINE payload, if any. -/
def Entity.asPoly : Entity → Option PolyEnt
  | .text _ => none
  | .lwpolyline p => some p

/-- The layers registered on the document, in order
(src/dxf_generator.py lines 89-92). -/
def registeredLayers : List String := ["BOUNDARY", "TEXT", "ROADS", "FEMA"]

/-- Line 117 of src/dxf_generator.py: `midpt = coords[len(coords)//2]` —
the road-label insertion point is the vertex at index `len(coords) // 2`
of the coordinate list (no offset is applied afterwards). -/
def roadLabelInsert (coords : List Pt) : Pt :=
  coords.getD (coords.length / 2) (0, 0)

/-- Modelled from the spec (§4.3): the midpoint of a single straight
segment — its 50%-length interpolation point.  Used only to compare the
source's insertion point against the spec's offset rule. -/
def segMidpoint (p q : Pt) : Pt :=
  ((p.1 + q.1) / 2, (p.2 + q.2) / 2)

/-- Python's `str.strip()`: remove whitespace from both ends. -/
def stripString (s : String) : String :=
  String.mk
    (((s.data.dropWhile Char.isWhitespace).reverse.dropWhile
        Char.isWhitespace).reverse)

/-- Lines 107-125 of src/dxf_generator.py, the body of the road-drawing
loop for one row: skip empty geometry and empty (stripped) names; a
LineString yields a polyline on "ROADS" plus a label on "TEXT" inserted at
the middle vertex; a MultiLineString yields only polylines, no label. -/
def drawRoadRow (textPlotHeight : ℚ) (rawName : String) (geom : Geom) :
    List Entity :=
  let name := stripString rawName
  if geom.isEmptyGeom = true ∨ name = "" then []
  else
    match geom with
    | .lineString coords =>
        [Entity.lwpolyline ⟨coords, false, "ROADS"⟩,
         Entity.text ⟨name, roadLabelInsert coords, 0,
                      textPlotHeight * (8 / 10), "TEXT"⟩]
    | .multiLineString parts =>
        parts.map (fun part => Entity.lwpolyline ⟨part, false, "ROADS"⟩)

/-- The rotations of the text entities in a list, in order. -/
def textRotations (es : List Entity) : List ℚ :=
  (es.filterMap Entity.asText).map TextEnt.rotation

/-- Lines 41-51 of src/dxf_generator.py: the whole OSM-road block is one
`try` whose only query is `ox.graph_from_point(..., network_type="drive")`;
any exception falls to the single `except`, which sets `roads` to an empty
GeoDataFrame.  The provider is abstracted as a function from the
network-type string to either the (already clipped) edge rows or an
exception message; the code consults it exactly once, with "drive". -/
def acquireRoads (provider : String → Except String (List RoadEdge)) :
    List RoadEdge :=
  match provider "drive" with
  | .ok edges => prepareRoads edges
  | .error _ => []

/-- Outcome of the FEMA ZIP lookup and extraction, covering the branches of
src/dxf_generator.py lines 56-78: no ZIP path (provider returned a falsy
path or the path does not exist), an exception while extracting/reading
(caught at line 77), no .shp inside the ZIP, or a successfully loaded and
clipped table of flood rows. -/
inductive FemaOutcome where
  | noZip : FemaOutcome
  | extractFail : FemaOutcome
  | noShp : FemaOutcome
  | loaded : List (Geom × Option String) → FemaOutcome
deriving Repr, DecidableEq

/-- The value of the `fema` variable after the load block: it stays `None`
on every non-success branch (it was initialized to `None` at line 56 and
each failing branch only prints a warning). -/
def femaTable : FemaOutcome → Option (List (Geom × Option String))
  | .noZip => none
  | .extractFail => none
  | .noShp => none
  | .loaded rows => some rows

/-- Lines 130-151 of src/dxf_generator.py, one row of the FEMA drawing
loop: a polygon exterior becomes a closed polyline on "FEMA" with an
optional zone label on "TEXT" at the centroid; here the geometry reuses
`Geom` with `lineString` standing for one polygon exterior ring and
`multiLineString` for a multipolygon's rings (labels only on the former,
matching the code).  `centroid` is kept abstract as the ring's first
vertex is not the shapely centroid; the insertion point is irrelevant to
the claims, only the layer and count matter. -/
def drawFemaRow (textPlotHeight : ℚ) (row : Geom × Option String) :
    List Entity :=
  if row.1.isEmptyGeom = true then []
  else
    match row.1 with
    | .lineString ring =>
        Entity.lwpolyline ⟨ring, true, "FEMA"⟩ ::
          (match row.2 with
           | some zone =>
               if stripString zone = "" then []
               else [Entity.text ⟨stripString zone, ring.getD 0 (0, 0), 0,
                                  textPlotHeight * (7 / 10), "TEXT"⟩]
           | none => [])
    | .multiLineString rings =>
        rings.map (fun ring => Entity.lwpolyline ⟨ring, true, "FEMA"⟩)

/-- Lines 130-151 guarded by `if fema is not None and not fema.empty`. -/
def drawFema (textPlotHeight : ℚ) : Option (List (Geom × Option String)) →
    List Entity
  | none => []
  | some rows => if rows.isEmpty then [] else rows.flatMap (drawFemaRow textPlotHeight)

/-- Line 156 of src/dxf_generator.py:
`pts = [(x * scale_factor, y * scale_factor) for x, y, *_ in entity.get_points()]`. -/
def scalePoint (factor : ℚ) (p : Pt) : Pt :=
  (p.1 * factor, p.2 * factor)

/-- The effect of the scaling loop body on one entity: an LWPOLYLINE has
its points multiplied by the factor; any other entity is not in the
`msp.query("LWPOLYLINE")` result and is untouched. -/
def scaleEntity (factor : ℚ) : Entity → Entity
  | .lwpolyline p =>
      Entity.lwpolyline ⟨p.points.map (scalePoint factor), p.closed, p.layer⟩
  | .text t => Entity.text t

/-- Lines 155-157: `for entity in msp.query("LWPOLYLINE"): ...` applied
across the modelspace. -/
def scaleLwpolylines (factor : ℚ) (es : List Entity) : List Entity :=
  es.map (scaleEntity factor)

/-- Lines 153-160: the surface-scaling step runs only when
`use_surface_scaling` is true; otherwise the modelspace is untouched. -/
def surfaceScalingStep (useSurfaceScaling : Bool) (factor : ℚ)
    (es : List Entity) : List Entity :=
  if useSurfaceScaling then scaleLwpolylines factor es else es

/-- The scalar inputs of `generate_dxf` that the modelspace assembly
depends on. -/
structure GenInputs where
  projectName : String
  northing : ℚ
  easting : ℚ
  drawingScale : ℕ
  textPlotHeight : ℚ
  bufferMiles : ℚ
  scaleFactor : ℚ
  countyName : String
  useSurfaceScaling : Bool
deriving Repr, DecidableEq

/-- Line 31: `BUFFER_FEET = buffer_miles * 5280.0`. -/
def bufferFeet (inp : GenInputs) : ℚ := inp.bufferMiles * 5280

/-- Lines 165-167: the project info note, added after the scaling step,
inserted at `(easting, northing + BUFFER_FEET / 2)`. -/
def projectNote (inp : GenInputs) : Entity :=
  Entity.text
    ⟨inp.projectName ++ "\n" ++ inp.countyName ++ " County\nScale 1\"=" ++
       toString inp.drawingScale ++ " ft",
     (inp.easting, inp.northing + bufferFeet inp / 2), 0,
     inp.textPlotHeight, "TEXT"⟩

/-- The full modelspace assembly of `generate_dxf` (lines 84-167): boundary
polyline, road polylines and labels, FEMA polylines and labels, then the
surface-scaling step over the LWPOLYLINEs added so far, then the project
note.  `boundaryRing` stands for the exterior coordinates of the shapely
buffer polygon (a circle approximation whose exact vertices are opaque to
this model); the road provider and the FEMA outcome are the two external
collaborators. -/
def generateModelspace (inp : GenInputs) (boundaryRing : List Pt)
    (provider : String → Except String (List RoadEdge))
    (femaOut : FemaOutcome) : List Entity :=
  let base :=
    Entity.lwpolyline ⟨boundaryRing, true, "BOUNDARY"⟩ ::
      ((acquireRoads provider).flatMap
         (fun e => drawRoadRow inp.textPlotHeight (e.name.getD "") e.geometry) ++
       drawFema inp.textPlotHeight (femaTable femaOut))
  surfaceScalingStep inp.useSurfaceScaling inp.scaleFactor base ++
    [projectNote inp]

/-- Squared Euclidean distance between two points. -/
def sqDist (p q : Pt) : ℚ :=
  (p.1 - q.1) * (p.1 - q.1) + (p.2 - q.2) * (p.2 - q.2)

/-- Two concrete clipped road edges sharing the normalized name
"Main St" and touching end to end at (1, 0). -/
def mainStA : RoadEdge := ⟨some "Main St", Geom.lineString [(0, 0), (1, 0)]⟩

/-- See `mainStA`; the second, discarded edge. -/
def mainStB : RoadEdge := ⟨some "Main St", Geom.lineString [(1, 0), (2, 0)]⟩

/-- A road provider whose richest mode "drive" raises, while every other
(degraded) query mode would succeed with one edge. -/
def failingDriveProvider : String → Except String (List RoadEdge) :=
  fun mode =>
    if mode = "drive" then Except.error "connection timeout"
    else Except.ok [mainStA]

/-- Concrete generator inputs matching the defaults shown in src/app.py. -/
def demoInputs : GenInputs :=
  ⟨"2025-214-003", 6963281.3, 2466606.4, 100, 8 / 100, 3, 1.00015271,
   "Collin", false⟩

/-! ## Helper lemmas -/

theorem mem_of_mem_dropDuplicatesByNameAux (l : List RoadEdge) :
    ∀ (seen : List (Option String)) (x : RoadEdge),
      x ∈ dropDuplicatesByNameAux seen l → x ∈ l := by
  induction l with
  | nil =>
      intro seen x hx
      exact absurd hx (List.not_mem_nil x)
  | cons e es ih =>
      intro seen x hx
      simp only [dropDuplicatesByNameAux] at hx
      split at hx
      · exact List.mem_cons_of_mem _ (ih seen x hx)
      · rcases List.mem_cons.mp hx with h | h
        · exact h ▸ List.mem_cons_self _ _
        · exact List.mem_cons_of_mem _ (ih _ x h)

theorem dropDuplicatesByNameAux_nodup (l : List RoadEdge) :
    ∀ seen : List (Option String),
      ((dropDuplicatesByNameAux seen l).map RoadEdge.name).Nodup ∧
      ∀ r ∈ dropDuplicatesByNameAux seen l, r.name ∉ seen := by
  induction l with
  | nil =>
      intro seen
      exact ⟨List.nodup_nil, fun r hr => absurd hr (List.not_mem_nil r)⟩
  | cons e es ih =>
      intro seen
      simp only [dropDuplicatesByNameAux]
      split
      · exact ih seen
      · case isFalse hmem =>
        constructor
        · rw [List.map_cons]
          refine List.nodup_cons.mpr ⟨?_, (ih (e.name :: seen)).1⟩
          intro hcon
          rcases List.mem_map.mp hcon with ⟨r, hr, hname⟩
          exact (ih (e.name :: seen)).2 r hr
            (by rw [hname]; exact List.mem_cons_self _ _)
        · intro r hr
          rcases List.mem_cons.mp hr with h | h
          · exact h ▸ hmem
          · intro hseen
            exact (ih (e.name :: seen)).2 r h (List.mem_cons_of_mem _ hseen)

theorem dropDuplicatesByNameAux_complete (l : List RoadEdge) :
    ∀ (seen : List (Option String)) (x : RoadEdge),
      x ∈ l → x.name ∉ seen →
      ∃ r ∈ dropDuplicatesByNameAux seen l, r.name = x.name := by
  induction l with
  | nil =>
      intro seen x hx
      exact absurd hx (List.not_mem_nil x)
  | cons e es ih =>
      intro seen x hx hseen
      simp only [dropDuplicatesByNameAux]
      split
      · case isTrue hmem =>
        rcases List.mem_cons.mp hx with h | h
        · exact absurd (h ▸ hmem) hseen
        · exact ih seen x h hseen
      · case isFalse hmem =>
        rcases List.mem_cons.mp hx with h | h
        · exact ⟨e, List.mem_cons_self _ _, by rw [h]⟩
        · by_cases hn : x.name = e.name
          · exact ⟨e, List.mem_cons_self _ _, hn.symm⟩
          · have hnotin : x.name ∉ e.name :: seen := by
              intro hc
              rcases List.mem_cons.mp hc with h1 | h1
              · exact hn h1
              · exact hseen h1
            rcases ih (e.name :: seen) x h hnotin with ⟨r, hr, hrn⟩
            exact ⟨r, List.mem_cons_of_mem _ hr, hrn⟩

/-! ## Claim theorems -/

/-- **C1** (corrected).  The pipeline does not merge the edges sharing a
normalized name: `dropna().drop_duplicates(subset="name")` keeps only the
first edge per name and silently discards the rest.  What does hold: the
road table has pairwise-distinct names, every kept row is one of the input
edges with its geometry unchanged (no union or line-merge is ever applied),
and every name carried by a non-null-named input edge is still represented
by exactly one kept edge. -/
theorem c1_one_edge_kept_per_name (edges : List RoadEdge) :
    ((prepareRoads edges).map RoadEdge.name).Nodup ∧
    (∀ r ∈ prepareRoads edges, r ∈ edges) ∧
    (∀ e ∈ edges, e.name.isSome = true →
      ∃ r ∈ prepareRoads edges, r.name = e.name) := by
  refine ⟨(dropDuplicatesByNameAux_nodup _ []).1, ?_, ?_⟩
  · intro r hr
    exact List.mem_of_mem_filter (mem_of_mem_dropDuplicatesByNameAux _ [] r hr)
  · intro e he hsome
    exact dropDuplicatesByNameAux_complete _ [] e
      (List.mem_filter.mpr ⟨he, hsome⟩) (List.not_mem_nil _)

/-- **C1** counterexample: two clipped edges named "Main St" touch end to
end at (1, 0); the claim says the single NamedRoad's geometry is the merge
of both, but the pipeline keeps only the first edge, and the point (2, 0)
carried by the second edge is absent from every kept road geometry. -/
theorem c1_merge_counterexample :
    prepareRoads [mainStA, mainStB] = [mainStA] ∧
    ((2 : ℚ), (0 : ℚ)) ∈ mainStB.geometry.points ∧
    ((2 : ℚ), (0 : ℚ)) ∉
      (prepareRoads [mainStA, mainStB]).flatMap
        (fun r => r.geometry.points) := by decide

/-- **C1** witness: the amended theorem applied to the two concrete
"Main St" edges. -/
theorem c1_witness :
    mainStB.name.isSome = true ∧
    ∃ r ∈ prepareRoads [mainStA, mainStB], r.name = mainStB.name :=
  ⟨by decide, (c1_one_edge_kept_per_name [mainStA, mainStB]).2.2 mainStB
    (by decide) (by decide)⟩

/-- **C2** (code bug).  src/dxf_generator.py line 10 imports `get_fema_zip`
from `dropbox_fema`, but src/dropbox_fema.py defines only
`county_flood_links` and `load_fema_layer`; the import therefore fails,
so no run can reach the pipeline body. -/
theorem c2_import_name_missing :
    "get_fema_zip" ∈ dxfGeneratorImportsFromDropboxFema ∧
    "get_fema_zip" ∉ dropboxFemaDefs ∧
    importOfDxfGeneratorOk = false := by decide

/-- **C3** (code bug).  The call in src/app.py passes the keyword
`coord_basis`, which is not a parameter of `generate_dxf`, and omits the
required parameter `use_surface_scaling`; the call is therefore not
well-formed and would raise `TypeError`. -/
theorem c3_call_not_well_formed :
    "coord_basis" ∈ appCallKwargs ∧
    "coord_basis" ∉ generateDxfParams ∧
    "use_surface_scaling" ∈ generateDxfParams ∧
    "use_surface_scaling" ∉ appCallKwargs ∧
    appCallWellFormed = false := by decide

/-- **C4** counterexample: for the line [(0,0),(2,0)] the computed
insertion point is the vertex (2,0) itself.  Its squared distance to the
segment midpoint is 1, while for the line [(0,0),(4,0)] it is 4 — so the
midpoint-to-insertion distance cannot equal any one configured offset —
and the displacement from the midpoint is parallel to the line's bearing
(nonzero dot product with the direction vector), not perpendicular. -/
theorem c4_no_offset_counterexample :
    roadLabelInsert [((0 : ℚ), (0 : ℚ)), (2, 0)] = (2, 0) ∧
    sqDist (segMidpoint (0, 0) (2, 0))
      (roadLabelInsert [((0 : ℚ), (0 : ℚ)), (2, 0)]) = 1 ∧
    sqDist (segMidpoint (0, 0) (4, 0))
      (roadLabelInsert [((0 : ℚ), (0 : ℚ)), (4, 0)]) = 4 ∧
    ((roadLabelInsert [((0 : ℚ), (0 : ℚ)), (2, 0)]).1 -
        (segMidpoint (0, 0) (2, 0)).1) * (2 - 0) +
      ((roadLabelInsert [((0 : ℚ), (0 : ℚ)), (2, 0)]).2 -
        (segMidpoint (0, 0) (2, 0)).2) * (0 - 0) ≠ 0 := by
  norm_num [roadLabelInsert, segMidpoint, sqDist]

/-- **C4** (corrected).  The label insertion point is simply the vertex at
index `len(coords) // 2` of the line's coordinate list — it lies on the
polyline itself; no perpendicular offset from the midpoint is applied. -/
theorem c4_insert_is_middle_vertex (coords : List Pt) (h : coords ≠ []) :
    roadLabelInsert coords ∈ coords := by
  have hlen : coords.length / 2 < coords.length :=
    Nat.div_lt_self (List.length_pos.mpr h) one_lt_two
  rw [roadLabelInsert, List.getD_eq_getElem _ _ hlen]
  exact List.getElem_mem hlen

/-- **C4** witness: the amended theorem applied to the concrete line
[(0,0),(2,0)]. -/
theorem c4_witness :
    ([((0 : ℚ), (0 : ℚ)), (2, 0)] : List Pt) ≠ [] ∧
    roadLabelInsert [((0 : ℚ), (0 : ℚ)), (2, 0)] ∈
      ([((0 : ℚ), (0 : ℚ)), (2, 0)] : List Pt) :=
  ⟨by decide, c4_insert_is_middle_vertex [((0 : ℚ), (0 : ℚ)), (2, 0)]
    (by decide)⟩

theorem textRotations_drawRoadRow_lineString (hgt : ℚ) (rawName : String)
    (cs : List Pt) :
    textRotations (drawRoadRow hgt rawName (Geom.lineString cs)) =
      if cs = [] ∨ stripString rawName = "" then [] else [0] := by
  by_cases h1 : cs = []
  · simp [drawRoadRow, Geom.isEmptyGeom, textRotations, h1]
  · by_cases h2 : stripString rawName = ""
    · simp [drawRoadRow, Geom.isEmptyGeom, textRotations, h1, h2]
    · simp [drawRoadRow, Geom.isEmptyGeom, textRotations, h1, h2,
        Entity.asText, List.filterMap_cons]

theorem rotation_of_mem_drawRoadRow (hgt : ℚ) (rawName : String)
    (geom : Geom) (t : TextEnt)
    (ht : t ∈ (drawRoadRow hgt rawName geom).filterMap Entity.asText) :
    t.rotation = 0 := by
  cases geom with
  | lineString coords =>
      simp only [drawRoadRow] at ht
      split at ht
      · simp at ht
      · simp only [List.filterMap_cons, Entity.asText, List.filterMap_nil] at ht
        rw [List.mem_singleton.mp ht]
  | multiLineString parts =>
      simp only [drawRoadRow] at ht
      split at ht
      · simp at ht
      · rw [List.filterMap_map] at ht
        simp [Function.comp, Entity.asText] at ht

/-- **C5** (confirmed).  The code never sets a rotation on any road label
(`add_text` is called without a `rotation` attribute), so every emitted
label carries the ezdxf default rotation 0: the rotation never lies in the
open interval (90°, 270°), and a line and its coordinate-reversed twin
trivially yield the same final rotation. -/
theorem c5_label_rotation_upright (hgt : ℚ) (rawName : String) (geom : Geom)
    (coords : List Pt) (t : TextEnt)
    (ht : t ∈ (drawRoadRow hgt rawName geom).filterMap Entity.asText) :
    ¬ ((90 : ℚ) < t.rotation ∧ t.rotation < 270) ∧
    textRotations (drawRoadRow hgt rawName (Geom.lineString coords.reverse)) =
      textRotations (drawRoadRow hgt rawName (Geom.lineString coords)) := by
  constructor
  · rw [rotation_of_mem_drawRoadRow hgt rawName geom t ht]
    intro hc
    exact absurd hc.1 (by norm_num)
  · rw [textRotations_drawRoadRow_lineString,
        textRotations_drawRoadRow_lineString]
    have hrev : coords.reverse = [] ↔ coords = [] :=
      List.reverse_eq_nil_iff
    by_cases h1 : coords = [] <;> by_cases h2 : stripString rawName = "" <;>
      simp [h1, h2, hrev]

/-- **C5** witness: the theorem applied to the concrete line
[(0,0),(2,1)] labeled "Main St". -/
theorem c5_witness :
    ¬ ((90 : ℚ) < (0 : ℚ) ∧ (0 : ℚ) < 270) ∧
    textRotations (drawRoadRow 1 "Main St"
        (Geom.lineString ([((0 : ℚ), (0 : ℚ)), (2, 1)]).reverse)) =
      textRotations (drawRoadRow 1 "Main St"
        (Geom.lineString [((0 : ℚ), (0 : ℚ)), (2, 1)])) :=
  c5_label_rotation_upright 1 "Main St"
    (Geom.lineString [((0 : ℚ), (0 : ℚ)), (2, 1)])
    [((0 : ℚ), (0 : ℚ)), (2, 1)]
    ⟨stripString "Main St", roadLabelInsert [((0 : ℚ), (0 : ℚ)), (2, 1)], 0,
     1 * (8 / 10), "TEXT"⟩
    (by
      simp only [drawRoadRow]
      rw [if_neg (by decide)]
      simp only [List.filterMap_cons, Entity.asText, List.filterMap_nil]
      exact List.mem_singleton.mpr rfl)

theorem dxfFilename_data_eq (p c : String) (s : ℕ) (b : Bool) :
    (dxfFilename p c s b).data =
      (p ++ "_" ++ c ++ "_VicinityMap_1in" ++ toString s ++ "ft_").data ++
        ((nadSuffixOf b).data ++ ".dxf".data) := by
  simp [dxfFilename, String.data_append, List.append_assoc]

/-- **C6** (corrected).  The file name is
`{project name}_{county}_VicinityMap_1in{scale}ft_{suffix}.dxf` with the
project name interpolated verbatim — no sanitization is performed — and
suffix N83S exactly when surface scaling is used (the surface and grid
names always differ). -/
theorem c6_filename_shape (p c : String) (s : ℕ) (b : Bool) :
    (∃ rest, dxfFilename p c s b = p ++ rest) ∧
    List.IsSuffix ((nadSuffixOf b).data ++ ".dxf".data)
      (dxfFilename p c s b).data ∧
    dxfFilename p c s true ≠ dxfFilename p c s false := by
  refine ⟨⟨"_" ++ c ++ "_VicinityMap_1in" ++ toString s ++ "ft_" ++
      nadSuffixOf b ++ ".dxf", ?_⟩, ?_, ?_⟩
  · apply String.ext
    simp [dxfFilename, String.data_append, List.append_assoc]
  · rw [dxfFilename_data_eq]
    exact List.suffix_append _ _
  · intro hcon
    have h1 := congrArg String.data hcon
    rw [dxfFilename_data_eq, dxfFilename_data_eq] at h1
    have h2 := List.append_cancel_left h1
    exact absurd h2 (by decide)

/-- **C6** counterexample: the project name "a/b" contains a character
illegal in file names, and it survives verbatim into the output name,
which therefore differs from the sanitized name the claim prescribes. -/
theorem c6_sanitize_counterexample :
    dxfFilename "a/b" "Collin" 100 false ≠
      dxfFilenameSpec "a/b" "Collin" 100 false ∧
    '/' ∈ (dxfFilename "a/b" "Collin" 100 false).data := by decide

theorem scaleEntity_layer (f : ℚ) (e : Entity) :
    (scaleEntity f e).layer = e.layer := by
  cases e <;> rfl

theorem filter_layer_scaleLwpolylines (f : ℚ) (L : String)
    (es : List Entity) :
    (scaleLwpolylines f es).filter (fun e => e.layer == L) =
      scaleLwpolylines f (es.filter (fun e => e.layer == L)) := by
  induction es with
  | nil => rfl
  | cons e es ih =>
      simp only [scaleLwpolylines, List.map_cons, List.filter_cons,
        scaleEntity_layer] at *
      by_cases h : (e.layer == L) = true
      · simp [h, ih]
      · simp [h, ih]

theorem layer_of_mem_drawRoadRow (hgt : ℚ) (n : String) (g : Geom) :
    ∀ e ∈ drawRoadRow hgt n g, e.layer = "ROADS" ∨ e.layer = "TEXT" := by
  intro e he
  cases g with
  | lineString coords =>
      simp only [drawRoadRow] at he
      split at he
      · simp at he
      · rcases List.mem_cons.mp he with h | h
        · left; rw [h]; rfl
        · rcases List.mem_cons.mp h with h2 | h2
          · right; rw [h2]; rfl
          · simp at h2
  | multiLineString parts =>
      simp only [drawRoadRow] at he
      split at he
      · simp at he
      · rcases List.mem_map.mp he with ⟨part, _, hpe⟩
        left; rw [← hpe]; rfl

theorem filter_fema_drawRoadRow (hgt : ℚ) (n : String) (g : Geom) :
    (drawRoadRow hgt n g).filter (fun e => e.layer == "FEMA") = [] := by
  rw [List.filter_eq_nil_iff]
  intro e he
  rcases layer_of_mem_drawRoadRow hgt n g e he with h | h <;> simp [h]

theorem filter_flatMap_eq_nil {α β : Type} (l : List α) (f : α → List β)
    (p : β → Bool) (h : ∀ a ∈ l, (f a).filter p = []) :
    (l.flatMap f).filter p = [] := by
  induction l with
  | nil => rfl
  | cons a l ih =>
      rw [List.flatMap_cons, List.filter_append,
        h a (List.mem_cons_self a l),
        ih (fun x hx => h x (List.mem_cons_of_mem _ hx))]
      rfl

/-- **C7** (confirmed).  When the FEMA provider yields no ZIP path, the
path is missing, extraction/reading fails, or no shapefile is found, the
`fema` table stays `None`: the pipeline still assembles the full drawing,
the "FEMA" layer is among the registered layers, and the modelspace
contains zero entities on the "FEMA" layer. -/
theorem c7_fema_layer_registered_but_empty (inp : GenInputs)
    (boundaryRing : List Pt)
    (provider : String → Except String (List RoadEdge)) (o : FemaOutcome)
    (h : femaTable o = none) :
    "FEMA" ∈ registeredLayers ∧
    (generateModelspace inp boundaryRing provider o).filter
      (fun e => e.layer == "FEMA") = [] := by
  refine ⟨by decide, ?_⟩
  unfold generateModelspace
  rw [h]
  have hbase :
      (Entity.lwpolyline ⟨boundaryRing, true, "BOUNDARY"⟩ ::
        ((acquireRoads provider).flatMap
          (fun e => drawRoadRow inp.textPlotHeight (e.name.getD "")
            e.geometry) ++
         drawFema inp.textPlotHeight none)).filter
        (fun e => e.layer == "FEMA") = [] := by
    rw [drawFema, List.append_nil, List.filter_cons]
    simp only [Entity.layer]
    rw [if_neg (by decide)]
    exact filter_flatMap_eq_nil _ _ _
      (fun a _ => filter_fema_drawRoadRow inp.textPlotHeight _ _)
  rw [List.filter_append]
  have hnote : ([projectNote inp].filter (fun e => e.layer == "FEMA")) = [] := by
    rw [List.filter_cons]
    simp only [projectNote, Entity.layer]
    rw [if_neg (by decide)]
    rfl
  rw [hnote, List.append_nil]
  unfold surfaceScalingStep
  split
  · rw [filter_layer_scaleLwpolylines, hbase]
    rfl
  · exact hbase

/-- **C7** witness: the theorem applied to the demo inputs with an
offline road provider and a missing FEMA ZIP. -/
theorem c7_witness :
    femaTable FemaOutcome.noZip = none ∧
    ("FEMA" ∈ registeredLayers ∧
     (generateModelspace demoInputs []
        (fun _ => Except.error "offline") FemaOutcome.noZip).filter
       (fun e => e.layer == "FEMA") = []) :=
  ⟨rfl, c7_fema_layer_registered_but_empty demoInputs []
    (fun _ => Except.error "offline") FemaOutcome.noZip rfl⟩

/-- **C8** (corrected).  There is no degraded-mode retry: the code issues a
single query with `network_type="drive"` inside one try/except.  The road
result depends only on the provider's answer for "drive" (no other mode is
ever consulted), and any failure of that single query immediately yields
an empty road set while the run continues — never a fatal error. -/
theorem c8_single_mode_no_retry
    (p q : String → Except String (List RoadEdge)) (e : String)
    (hpq : p "drive" = q "drive") (hfail : p "drive" = Except.error e) :
    acquireRoads p = acquireRoads q ∧ acquireRoads p = [] := by
  constructor
  · unfold acquireRoads
    rw [hpq]
  · unfold acquireRoads
    rw [hfail]

/-- **C8** counterexample: a provider whose richest mode "drive" fails but
whose degraded mode "drive_service" would return an edge; the code still
produces zero roads, so no degraded retry happens before giving up. -/
theorem c8_degraded_mode_unused :
    failingDriveProvider "drive_service" = Except.ok [mainStA] ∧
    acquireRoads failingDriveProvider = [] := by
  constructor
  · rfl
  · rfl

/-- **C8** witness: the amended theorem applied to the concrete failing
provider and a provider that fails on every mode but agrees on "drive". -/
theorem c8_witness :
    failingDriveProvider "drive" =
      (fun _ => (Except.error "connection timeout" :
        Except String (List RoadEdge))) "drive" ∧
    failingDriveProvider "drive" =
      Except.error "connection timeout" ∧
    (acquireRoads failingDriveProvider =
       acquireRoads (fun _ => Except.error "connection timeout") ∧
     acquireRoads failingDriveProvider = []) :=
  ⟨rfl, rfl, c8_single_mode_no_retry failingDriveProvider
    (fun _ => Except.error "connection timeout") "connection timeout" rfl rfl⟩

theorem scalePoint_inv (f : ℚ) (hf : f ≠ 0) (pt : Pt) :
    scalePoint (1 / f) (scalePoint f pt) = pt := by
  cases pt with
  | mk x y =>
      simp only [scalePoint, Prod.mk.injEq]
      constructor <;>
        rw [mul_one_div, mul_div_cancel_right₀ _ hf]

/-- **C9** (confirmed).  The scaling step multiplies every LWPOLYLINE
coordinate by the factor; over exact (rational) arithmetic, scaling a
modelspace by f > 0 and then by 1/f restores every entity exactly — the
map is linear and invertible. -/
theorem c9_scaling_inverse (f : ℚ) (hf : 0 < f) (es : List Entity) :
    scaleLwpolylines (1 / f) (scaleLwpolylines f es) = es := by
  unfold scaleLwpolylines
  rw [List.map_map]
  have hent : ∀ e : Entity, (scaleEntity (1 / f) ∘ scaleEntity f) e = e := by
    intro e
    cases e with
    | text t => rfl
    | lwpolyline pl =>
        simp only [Function.comp_def, scaleEntity, List.map_map]
        have hpts :
            pl.points.map (fun q => scalePoint (1 / f) (scalePoint f q)) =
              pl.points :=
          calc pl.points.map (fun q => scalePoint (1 / f) (scalePoint f q)) =
              pl.points.map (fun q => q) :=
                List.map_congr_left (fun q _ => scalePoint_inv f hf.ne' q)
            _ = pl.points := List.map_id' pl.points
        rw [hpts]
  rw [List.map_congr_left (fun e _ => hent e), List.map_id' es]

/-- **C9** witness: the theorem applied with f = 2 to a one-polyline
modelspace. -/
theorem c9_witness :
    (0 : ℚ) < 2 ∧
    scaleLwpolylines (1 / 2) (scaleLwpolylines 2
      [Entity.lwpolyline ⟨[((1 : ℚ), (3 : ℚ))], false, "ROADS"⟩]) =
      [Entity.lwpolyline ⟨[((1 : ℚ), (3 : ℚ))], false, "ROADS"⟩] :=
  ⟨by norm_num, c9_scaling_inverse 2 (by norm_num) _⟩

theorem scaleLwpolylines_asText (f : ℚ) (es : List Entity) :
    (scaleLwpolylines f es).filterMap Entity.asText =
      es.filterMap Entity.asText := by
  rw [scaleLwpolylines, List.filterMap_map]
  congr 1
  funext e
  cases e <;> rfl

theorem scaleLwpolylines_asPoly (f : ℚ) (es : List Entity) :
    (scaleLwpolylines f es).filterMap Entity.asPoly =
      (es.filterMap Entity.asPoly).map
        (fun pl => ⟨pl.points.map (scalePoint f), pl.closed, pl.layer⟩) := by
  rw [scaleLwpolylines, List.filterMap_map, List.map_filterMap]
  congr 1
  funext e
  cases e <;> rfl

/-- **C10** (confirmed).  The surface-scaling step rewrites only the
LWPOLYLINE entities' coordinates; the TEXT entities present in the
modelspace — road labels and flood zone labels — pass through the step
entirely unchanged, insertion points included (the project info note is
added only after the step, so it too is unaffected). -/
theorem c10_scaling_leaves_text_fixed (f : ℚ) (es : List Entity) :
    (surfaceScalingStep true f es).filterMap Entity.asText =
      es.filterMap Entity.asText ∧
    (surfaceScalingStep true f es).filterMap Entity.asPoly =
      (es.filterMap Entity.asPoly).map
        (fun pl => ⟨pl.points.map (scalePoint f), pl.closed, pl.layer⟩) := by
  constructor
  · rw [surfaceScalingStep, if_pos rfl]
    exact scaleLwpolylines_asText f es
  · rw [surfaceScalingStep, if_pos rfl]
    exact scaleLwpolylines_asPoly f es

end YPSite
